import Mathlib

set_option maxRecDepth 8000

/-!
Verification of the PhytoGuard dashboard core (`app.py`): the Modbus frame
codec, the bounded history store with its sequence counter and wait/notify
broadcast, the synthetic data source, and the acquisition worker's
failure-handling policy.  Python byte values are modelled as `Nat` (with
`< 256` bounds where relevant), byte strings as `List Nat`, Python floats
as `ℚ`, and Python ints as `ℤ` or `Nat`.
-/

namespace PhytoGuard

/-! ## Frame codec -/

/-- One inner-loop round of `_crc16_modbus` (`app.py` lines 40-44):
shift right by one, XOR-ing `0xA001` in when the low bit was set. -/
def crcRound (crc : Nat) : Nat :=
  if crc &&& 1 = 1 then (crc >>> 1) ^^^ 0xA001 else crc >>> 1

/-- Processing of one byte by `_crc16_modbus` (`app.py` lines 39-44):
XOR the byte into the register, then run eight rounds. -/
def crcByte (crc b : Nat) : Nat :=
  (List.range 8).foldl (fun c _ => crcRound c) (crc ^^^ b)

/-- `_crc16_modbus` (`app.py` lines 36-45): CRC-16/Modbus over a byte
sequence, initial register `0xFFFF`, final mask `& 0xFFFF`. -/
def _crc16_modbus (data : List Nat) : Nat :=
  (data.foldl crcByte 0xFFFF) &&& 0xFFFF

/-- Modelled from the spec (§4.1 `checksum16`): start from register
`0xFFFF`, XOR in each byte in order, and per byte perform 8 steps of
shift-right-by-one with a conditional XOR of `0xA001` when the low bit
was set.  Stated without the implementation's final mask, to be compared
with `_crc16_modbus`. -/
def checksum16_spec (data : List Nat) : Nat :=
  data.foldl
    (fun crc b =>
      (List.range 8).foldl
        (fun c _ => if c &&& 1 = 1 then (c >>> 1) ^^^ 0xA001 else c >>> 1)
        (crc ^^^ b))
    0xFFFF

/-- The decode failure conditions of `_parse_frame` (`app.py` lines 47-59),
one named kind per `raise` site, in source order. -/
inductive DecodeError where
  | FrameLengthError
  | ChecksumError
  | FunctionCodeError
  | ByteCountError
deriving DecidableEq, Repr

/-- The dict returned by `_parse_frame` on success (`app.py` lines 66-75).
Python float fields (`regs[i] / 10.0`) are modelled as `ℚ`; raw register
fields stay `Nat`.  The record carries no timestamp: `_parse_frame`
attaches none (the caller adds it at `app.py` line 138). -/
structure Reading where
  sensor_id : Nat
  humidity : ℚ
  temperature : ℚ
  conductivity : Nat
  ph : ℚ
  nitrogen : Nat
  phosphorus : Nat
  potassium : Nat
deriving DecidableEq, Repr

/-- `_parse_frame` (`app.py` lines 47-75): validate length 19, then the
little-endian trailing CRC over the first 17 bytes, then function code
`0x03` at index 1, then byte count `14` at index 2; on success read seven
big-endian 16-bit registers from bytes 3..16 and build the reading. -/
def _parse_frame (frame : List Nat) : Except DecodeError Reading :=
  if frame.length ≠ 19 then .error .FrameLengthError
  else
    let data_wo_crc := frame.take 17
    let crc_expected := frame.getD 17 0 ||| (frame.getD 18 0 <<< 8)
    let crc_calc := _crc16_modbus data_wo_crc
    if crc_expected ≠ crc_calc then .error .ChecksumError
    else if frame.getD 1 0 ≠ 0x03 then .error .FunctionCodeError
    else if frame.getD 2 0 ≠ 14 then .error .ByteCountError
    else
      let reg := fun i => (frame.getD (3 + 2 * i) 0 <<< 8) ||| frame.getD (4 + 2 * i) 0
      .ok
        { sensor_id := frame.getD 0 0
          humidity := (reg 0 : ℚ) / 10
          temperature := (reg 1 : ℚ) / 10
          conductivity := reg 2
          ph := (reg 3 : ℚ) / 10
          nitrogen := reg 4
          phosphorus := reg 5
          potassium := reg 6 }

/-- `QUERY_FRAME` (`app.py` line 26): the fixed outbound Modbus query. -/
def QUERY_FRAME : List Nat :=
  [0x01, 0x03, 0x00, 0x00, 0x00, 0x07, 0x04, 0x08]

/-- Append the little-endian CRC of a body to itself, producing a frame laid
out the way `_parse_frame` expects its trailing two bytes.  Not a function of
the source (the device builds response frames); used to exhibit concrete
frames that pass `_parse_frame`'s checksum stage. -/
def appendCrc (body : List Nat) : List Nat :=
  body ++ [_crc16_modbus body % 256, _crc16_modbus body / 256]

/-- A well-formed 19-byte response frame: address byte, function code 3,
byte count 14, seven big-endian 16-bit registers, little-endian CRC. -/
def mkFrame (addr r0 r1 r2 r3 r4 r5 r6 : Nat) : List Nat :=
  appendCrc [addr, 3, 14, r0 / 256, r0 % 256, r1 / 256, r1 % 256, r2 / 256, r2 % 256,
             r3 / 256, r3 % 256, r4 / 256, r4 % 256, r5 / 256, r5 % 256, r6 / 256, r6 % 256]

/-- The valid frame from the spec's concrete example: sensor 1, registers
`550, 350, 400, 65, 20, 15, 30`, with its correct CRC `0x947E` (bytes
`126, 148` little-endian). -/
def exampleFrame : List Nat :=
  [1, 3, 14, 2, 38, 1, 94, 1, 144, 0, 65, 0, 20, 0, 15, 0, 30, 126, 148]

/-- The reading decoded from `exampleFrame`, with each field kept in the
unreduced shape `_parse_frame` produces. -/
def exampleReading : Reading :=
  { sensor_id := 1
    humidity := ((550 : Nat) : ℚ) / 10
    temperature := ((350 : Nat) : ℚ) / 10
    conductivity := 400
    ph := ((65 : Nat) : ℚ) / 10
    nitrogen := 20
    phosphorus := 15
    potassium := 30 }

/-! ## History store and broadcaster -/

/-- One `history.append(data)` on the `deque(maxlen := cap)` of `app.py`
line 30: append at the tail and, when the deque is over capacity, evict
from the head.  For `buf.length ≤ cap` (the reachable states) the amount
dropped is at most one element, exactly `collections.deque` semantics,
and for `cap = 0` the buffer stays empty. -/
def dequeAppend {α : Type} (cap : Nat) (buf : List α) (x : α) : List α :=
  (buf ++ [x]).drop (buf.length + 1 - cap)

/-- The history buffer contents after a sequence of appends starting from
the empty deque (`app.py` line 30 creates `history` empty). -/
def historyAfter {α : Type} (cap : Nat) (xs : List α) : List α :=
  xs.foldl (dequeAppend cap) []

/-- The shared state guarded by `_cond` (`app.py` lines 30-32): the
`history` deque and the `_last_seq` counter. -/
structure StoreState where
  history : List Reading
  last_seq : Nat
deriving DecidableEq, Repr

/-- The critical section at `app.py` lines 139-142: under `_cond`, append
the reading, increment `_last_seq` by one, and notify all waiters.  The
lock makes the three operations one atomic unit, which this single
function models. -/
def storeAppend (cap : Nat) (s : StoreState) (r : Reading) : StoreState :=
  { history := dequeAppend cap s.history r
    last_seq := s.last_seq + 1 }

/-- The store state after a sequence of successful appends. -/
def storeRun (cap : Nat) (s : StoreState) (rs : List Reading) : StoreState :=
  rs.foldl (storeAppend cap) s

/-- One evaluation of the wait predicate plus body of `event_stream`
(`app.py` lines 185-188): if `_last_seq` differs from `last_seen`, return
the latest reading (`history[-1]`) with the new sequence number; if they
are equal, `_cond.wait_for` keeps the caller blocked, modelled as `none`. -/
def waitForNextNow (lastSeen : Nat) (s : StoreState) : Option (Reading × Nat) :=
  if s.last_seq ≠ lastSeen then s.history.getLast?.map (fun r => (r, s.last_seq)) else none

/-- A concrete reading used to instantiate store theorems. -/
def sampleReading (n : Nat) : Reading :=
  { sensor_id := n, humidity := n, temperature := n, conductivity := n,
    ph := n, nitrogen := n, phosphorus := n, potassium := n }

/-! ## Synthetic source -/

/-- The simulated state dict (`app.py` lines 92-100).  Python floats are
`ℚ`; `conductivity`, `nitrogen`, `phosphorus`, `potassium` start as Python
ints and stay ints (`int(...)` increments), modelled as `ℤ`. -/
structure SimState where
  humidity : ℚ
  temperature : ℚ
  ph : ℚ
  conductivity : ℤ
  nitrogen : ℤ
  phosphorus : ℤ
  potassium : ℤ
deriving DecidableEq, Repr

/-- The seven draws of `random.random()` made by one simulated cycle
(`app.py` lines 120-126), one per field, each conceptually in `[0, 1)`;
the clamp invariant holds for arbitrary rational draws. -/
structure SimNoise where
  humidity : ℚ
  temperature : ℚ
  ph : ℚ
  conductivity : ℚ
  nitrogen : ℚ
  phosphorus : ℚ
  potassium : ℚ
deriving DecidableEq, Repr

/-- Python `int(x)` on a float: truncation toward zero. -/
def truncQ (x : ℚ) : ℤ :=
  if 0 ≤ x then ⌊x⌋ else -⌊-x⌋

/-- One simulated-data cycle (`app.py` lines 119-134): add a bounded
perturbation to each field, then clamp — humidity to `[0, 100]`,
temperature to `[-20, 60]`, pH to `[0, 14]`, and the four integer fields
to `≥ 0`. -/
def simStep (u : SimNoise) (s : SimState) : SimState :=
  let h := s.humidity + (1/10 - 2/10 * u.humidity)
  let t := s.temperature + (1/20 - 1/10 * u.temperature)
  let p := s.ph + (1/50 - 1/25 * u.ph)
  let c := s.conductivity + truncQ (2 - 4 * u.conductivity)
  let n := s.nitrogen + truncQ (2/5 - 4/5 * u.nitrogen)
  let ps := s.phosphorus + truncQ (2/5 - 4/5 * u.phosphorus)
  let k := s.potassium + truncQ (2/5 - 4/5 * u.potassium)
  { humidity := max 0 (min 100 h)
    temperature := max (-20) (min 60 t)
    ph := max 0 (min 14 p)
    conductivity := max 0 c
    nitrogen := max 0 n
    phosphorus := max 0 ps
    potassium := max 0 k }

/-- The simulated state after a sequence of cycles. -/
def simRun (us : List SimNoise) (s : SimState) : SimState :=
  us.foldl (fun t u => simStep u t) s

/-- The documented clamp ranges of the synthetic source. -/
def inRange (s : SimState) : Prop :=
  0 ≤ s.humidity ∧ s.humidity ≤ 100 ∧
  -20 ≤ s.temperature ∧ s.temperature ≤ 60 ∧
  0 ≤ s.ph ∧ s.ph ≤ 14 ∧
  0 ≤ s.conductivity ∧ 0 ≤ s.nitrogen ∧ 0 ≤ s.phosphorus ∧ 0 ≤ s.potassium

instance (s : SimState) : Decidable (inRange s) := by
  unfold inRange
  infer_instance

/-- The initial simulated state (`app.py` lines 92-100). -/
def simInit : SimState :=
  { humidity := 55, temperature := 57/2, ph := 13/2,
    conductivity := 450, nitrogen := 20, phosphorus := 15, potassium := 30 }

/-- A concrete noise vector: every draw is `1/2`. -/
def halfNoise : SimNoise :=
  { humidity := 1/2, temperature := 1/2, ph := 1/2, conductivity := 1/2,
    nitrogen := 1/2, phosphorus := 1/2, potassium := 1/2 }

/-! ## Acquisition worker failure policy -/

/-- The worker-visible mode state: whether the serial link object is open
(`ser is not None`) and the `_is_simulating` flag. -/
structure WorkerState where
  serOpen : Bool
  simulating : Bool
deriving DecidableEq, Repr

/-- The `except Exception` handler of the worker loop (`app.py` lines
144-152): when the link is open and `FALLBACK_TO_SIM` is set, close the
link and switch to simulated mode; otherwise leave the state unchanged.
Either way sleep a fixed backoff, returned as the second component
(`time.sleep(1.0)`). -/
def onCycleError (fallback : Bool) (s : WorkerState) : WorkerState × ℚ :=
  if s.serOpen && fallback then ({ serOpen := false, simulating := true }, 1)
  else (s, 1)

/-! ## Helper lemmas -/

/-- Recombining the high and low bytes of a 16-bit value, big-endian. -/
theorem lor_hi_lo (x : Nat) : ((x / 256) <<< 8) ||| x % 256 = x := by
  have hb : x % 256 < 2 ^ 8 := by
    have h := Nat.mod_lt x (y := 256) (by norm_num)
    simpa using h
  calc ((x / 256) <<< 8) ||| x % 256
      = 2 ^ 8 * (x / 256) ||| x % 256 := by rw [Nat.shiftLeft_eq, Nat.mul_comm]
    _ = 2 ^ 8 * (x / 256) + x % 256 := (Nat.mul_add_lt_is_or hb _).symm
    _ = x := by omega

/-- Recombining the low and high bytes of a 16-bit value, little-endian. -/
theorem lor_lo_hi (x : Nat) : x % 256 ||| ((x / 256) <<< 8) = x := by
  rw [Nat.lor_comm]
  exact lor_hi_lo x

/-- When all four validation stages pass, `_parse_frame` succeeds with the
positional field mapping. -/
theorem parse_frame_eq_ok_of (frame : List Nat)
    (hlen : frame.length = 19)
    (hcrc : frame.getD 17 0 ||| (frame.getD 18 0 <<< 8) = _crc16_modbus (frame.take 17))
    (hfn : frame.getD 1 0 = 3) (hbc : frame.getD 2 0 = 14) :
    _parse_frame frame = .ok
      { sensor_id := frame.getD 0 0
        humidity := ((frame.getD 3 0 <<< 8 ||| frame.getD 4 0 : Nat) : ℚ) / 10
        temperature := ((frame.getD 5 0 <<< 8 ||| frame.getD 6 0 : Nat) : ℚ) / 10
        conductivity := frame.getD 7 0 <<< 8 ||| frame.getD 8 0
        ph := ((frame.getD 9 0 <<< 8 ||| frame.getD 10 0 : Nat) : ℚ) / 10
        nitrogen := frame.getD 11 0 <<< 8 ||| frame.getD 12 0
        phosphorus := frame.getD 13 0 <<< 8 ||| frame.getD 14 0
        potassium := frame.getD 15 0 <<< 8 ||| frame.getD 16 0 } := by
  simp only [_parse_frame]
  rw [if_neg (not_ne_iff.mpr hlen), if_neg (not_ne_iff.mpr hcrc),
    if_neg (not_ne_iff.mpr hfn), if_neg (not_ne_iff.mpr hbc)]

/-- A frame of the shape produced by `appendCrc` on a 17-byte body with
function code 3 and byte count 14 always parses, with the first body byte
returned unchanged as the sensor identifier. -/
theorem parse_appendCrc
    (b0 b3 b4 b5 b6 b7 b8 b9 b10 b11 b12 b13 b14 b15 b16 : Nat) :
    _parse_frame (appendCrc [b0, 3, 14, b3, b4, b5, b6, b7, b8, b9, b10,
        b11, b12, b13, b14, b15, b16]) = .ok
      { sensor_id := b0
        humidity := ((b3 <<< 8 ||| b4 : Nat) : ℚ) / 10
        temperature := ((b5 <<< 8 ||| b6 : Nat) : ℚ) / 10
        conductivity := b7 <<< 8 ||| b8
        ph := ((b9 <<< 8 ||| b10 : Nat) : ℚ) / 10
        nitrogen := b11 <<< 8 ||| b12
        phosphorus := b13 <<< 8 ||| b14
        potassium := b15 <<< 8 ||| b16 } := by
  have hcrc : (appendCrc [b0, 3, 14, b3, b4, b5, b6, b7, b8, b9, b10,
        b11, b12, b13, b14, b15, b16]).getD 17 0 |||
      ((appendCrc [b0, 3, 14, b3, b4, b5, b6, b7, b8, b9, b10,
        b11, b12, b13, b14, b15, b16]).getD 18 0 <<< 8) =
      _crc16_modbus ((appendCrc [b0, 3, 14, b3, b4, b5, b6, b7, b8, b9, b10,
        b11, b12, b13, b14, b15, b16]).take 17) :=
    lor_lo_hi _
  exact parse_frame_eq_ok_of _ rfl hcrc rfl rfl

/-! ## Claim theorems -/

/-- C1: `_parse_frame` validates in this exact order with a distinct error
per stage — any length other than 19 gives `FrameLengthError` before all
other checks; for a 19-byte frame a little-endian trailing-byte mismatch
against the CRC of the first 17 bytes gives `ChecksumError` regardless of
function code and byte count; then a second byte other than `0x03` gives
`FunctionCodeError`; then a third byte other than 14 gives
`ByteCountError`. -/
theorem C1_parse_validation_order :
    (∀ frame : List Nat, frame.length ≠ 19 →
      _parse_frame frame = .error .FrameLengthError) ∧
    (∀ frame : List Nat, frame.length = 19 →
      frame.getD 17 0 ||| (frame.getD 18 0 <<< 8) ≠ _crc16_modbus (frame.take 17) →
      _parse_frame frame = .error .ChecksumError) ∧
    (∀ frame : List Nat, frame.length = 19 →
      frame.getD 17 0 ||| (frame.getD 18 0 <<< 8) = _crc16_modbus (frame.take 17) →
      frame.getD 1 0 ≠ 3 →
      _parse_frame frame = .error .FunctionCodeError) ∧
    (∀ frame : List Nat, frame.length = 19 →
      frame.getD 17 0 ||| (frame.getD 18 0 <<< 8) = _crc16_modbus (frame.take 17) →
      frame.getD 1 0 = 3 → frame.getD 2 0 ≠ 14 →
      _parse_frame frame = .error .ByteCountError) := by
  refine ⟨?_, ?_, ?_, ?_⟩
  · intro frame h
    simp [_parse_frame, h]
  · intro frame hlen hcrc
    simp only [_parse_frame]
    rw [if_neg (not_ne_iff.mpr hlen), if_pos hcrc]
  · intro frame hlen hcrc hfn
    simp only [_parse_frame]
    rw [if_neg (not_ne_iff.mpr hlen), if_neg (not_ne_iff.mpr hcrc), if_pos hfn]
  · intro frame hlen hcrc hfn hbc
    simp only [_parse_frame]
    rw [if_neg (not_ne_iff.mpr hlen), if_neg (not_ne_iff.mpr hcrc),
      if_neg (not_ne_iff.mpr hfn), if_pos hbc]

/-- C1 witness: concrete frames hitting each stage — lengths 0, 18 and 20
all give `FrameLengthError`; an all-zero 19-byte frame (whose function
code and byte count are also wrong) gives `ChecksumError`; a frame with a
correct CRC but function code 2 gives `FunctionCodeError`; a frame with a
correct CRC, function code 3 and byte count 13 gives `ByteCountError`. -/
theorem C1_parse_validation_order_witness :
    _parse_frame [] = .error .FrameLengthError ∧
    _parse_frame (List.replicate 18 0) = .error .FrameLengthError ∧
    _parse_frame (List.replicate 20 0) = .error .FrameLengthError ∧
    _parse_frame (List.replicate 19 0) = .error .ChecksumError ∧
    _parse_frame [1, 2, 14, 2, 38, 1, 94, 1, 144, 0, 65, 0, 20, 0, 15, 0, 30, 191, 4] =
      .error .FunctionCodeError ∧
    _parse_frame [1, 3, 13, 2, 38, 1, 94, 1, 144, 0, 65, 0, 20, 0, 15, 0, 30, 61, 149] =
      .error .ByteCountError :=
  ⟨C1_parse_validation_order.1 _ (by decide),
   C1_parse_validation_order.1 _ (by decide),
   C1_parse_validation_order.1 _ (by decide),
   C1_parse_validation_order.2.1 _ (by decide) (by decide),
   C1_parse_validation_order.2.2.1 _ (by decide) (by decide) (by decide),
   C1_parse_validation_order.2.2.2 _ (by decide) (by decide) (by decide) (by decide)⟩

/-- The CRC register stays within 16 bits across one round. -/
theorem crcRound_lt (c : Nat) (hc : c < 2 ^ 16) : crcRound c < 2 ^ 16 := by
  have h1 : c >>> 1 < 2 ^ 16 := by
    rw [Nat.shiftRight_eq_div_pow]
    exact lt_of_le_of_lt (Nat.div_le_self c (2 ^ 1)) hc
  unfold crcRound
  split
  · exact Nat.xor_lt_two_pow h1 (by norm_num)
  · exact h1

/-- The CRC register stays within 16 bits across one byte. -/
theorem crcByte_lt (c b : Nat) (hc : c < 2 ^ 16) (hb : b < 2 ^ 16) :
    crcByte c b < 2 ^ 16 := by
  have hgen : ∀ (l : List Nat) (a : Nat), a < 2 ^ 16 →
      l.foldl (fun c' _ => crcRound c') a < 2 ^ 16 := by
    intro l
    induction l with
    | nil => intro a ha; exact ha
    | cons x xs ih => intro a ha; exact ih _ (crcRound_lt a ha)
  exact hgen _ _ (Nat.xor_lt_two_pow hc hb)

/-- Over byte-valued input the whole CRC fold stays within 16 bits. -/
theorem crcFold_lt (data : List Nat) (h : ∀ b ∈ data, b < 256) :
    data.foldl crcByte 0xFFFF < 2 ^ 16 := by
  have hgen : ∀ (l : List Nat), (∀ b ∈ l, b < 256) → ∀ a : Nat, a < 2 ^ 16 →
      l.foldl crcByte a < 2 ^ 16 := by
    intro l
    induction l with
    | nil => intro _ a ha; exact ha
    | cons x xs ih =>
        intro hl a ha
        have hx : x < 2 ^ 16 := lt_trans (hl x (by simp)) (by norm_num)
        exact ih (fun b hb => hl b (by simp [hb])) _ (crcByte_lt a x ha hx)
  exact hgen data h 0xFFFF (by norm_num)

/-- C2: for every sequence of bytes, `_crc16_modbus` computes exactly the
reference CRC-16/Modbus recurrence stated by the spec — start from
register `0xFFFF`, XOR in each byte in order, and per byte do 8 rounds of
shift-right-by-one with a conditional XOR of `0xA001` when the low bit
was set; the register never leaves 16 bits, so the implementation's final
mask is the identity.  Both sides are Lean functions, hence
deterministic. -/
theorem C2_checksum16_matches_spec (data : List Nat) (h : ∀ b ∈ data, b < 256) :
    _crc16_modbus data = checksum16_spec data ∧ checksum16_spec data < 65536 := by
  have hspec : checksum16_spec data = data.foldl crcByte 0xFFFF := rfl
  have hlt : data.foldl crcByte 0xFFFF < 2 ^ 16 := crcFold_lt data h
  have h16 : (2 : Nat) ^ 16 = 65536 := by norm_num
  constructor
  · show (data.foldl crcByte 0xFFFF) &&& 0xFFFF = checksum16_spec data
    rw [hspec]
    have hmask : (0xFFFF : Nat) = 2 ^ 16 - 1 := by norm_num
    rw [hmask]
    exact Nat.and_pow_two_sub_one_of_lt_two_pow hlt
  · rw [hspec]
    omega

/-- C2 witness: the equivalence applied to the query body, whose six
bytes are all below 256. -/
theorem C2_checksum16_matches_spec_witness :
    _crc16_modbus (QUERY_FRAME.take 6) = checksum16_spec (QUERY_FRAME.take 6) ∧
    checksum16_spec (QUERY_FRAME.take 6) < 65536 :=
  C2_checksum16_matches_spec _ (by decide)

/-- C3: the outbound query frame is exactly 8 bytes — address `0x01`,
function code `0x03`, big-endian start register `0x0000`, big-endian
register count `0x0007` — and its trailing two bytes, read little-endian,
equal `_crc16_modbus` of its first 6 bytes. -/
theorem C3_query_frame_selfconsistent :
    QUERY_FRAME.length = 8 ∧
    QUERY_FRAME.getD 0 0 = 0x01 ∧
    QUERY_FRAME.getD 1 0 = 0x03 ∧
    (QUERY_FRAME.getD 2 0 <<< 8) ||| QUERY_FRAME.getD 3 0 = 0x0000 ∧
    (QUERY_FRAME.getD 4 0 <<< 8) ||| QUERY_FRAME.getD 5 0 = 0x0007 ∧
    QUERY_FRAME.getD 6 0 ||| (QUERY_FRAME.getD 7 0 <<< 8) =
      _crc16_modbus (QUERY_FRAME.take 6) := by
  refine ⟨rfl, rfl, rfl, rfl, rfl, ?_⟩
  decide

/-- C4: whenever `_parse_frame` succeeds, the returned reading is exactly
the positional big-endian register mapping — sensor identifier from frame
byte 0, humidity and temperature and pH scaled by one tenth, the other
four registers raw.  The `Reading` type carries no timestamp, so decode
attaches none. -/
theorem C4_parse_success_field_mapping (frame : List Nat) (r : Reading)
    (h : _parse_frame frame = .ok r) :
    r.sensor_id = frame.getD 0 0 ∧
    r.humidity = ((frame.getD 3 0 <<< 8 ||| frame.getD 4 0 : Nat) : ℚ) / 10 ∧
    r.temperature = ((frame.getD 5 0 <<< 8 ||| frame.getD 6 0 : Nat) : ℚ) / 10 ∧
    r.conductivity = frame.getD 7 0 <<< 8 ||| frame.getD 8 0 ∧
    r.ph = ((frame.getD 9 0 <<< 8 ||| frame.getD 10 0 : Nat) : ℚ) / 10 ∧
    r.nitrogen = frame.getD 11 0 <<< 8 ||| frame.getD 12 0 ∧
    r.phosphorus = frame.getD 13 0 <<< 8 ||| frame.getD 14 0 ∧
    r.potassium = frame.getD 15 0 <<< 8 ||| frame.getD 16 0 := by
  simp only [_parse_frame] at h
  split at h
  · exact absurd h (by simp)
  · split at h
    · exact absurd h (by simp)
    · split at h
      · exact absurd h (by simp)
      · split at h
        · exact absurd h (by simp)
        · rw [Except.ok.injEq] at h
          subst h
          exact ⟨rfl, rfl, rfl, rfl, rfl, rfl, rfl, rfl⟩

/-- C4 witness: the spec's concrete example — registers
`550, 350, 400, 65, 20, 15, 30` under sensor 1 decode to humidity `55.0`,
temperature `35.0`, conductivity `400`, pH `6.5`, nitrogen `20`,
phosphorus `15`, potassium `30`. -/
theorem C4_parse_success_field_mapping_witness :
    _parse_frame exampleFrame = .ok exampleReading ∧
    exampleReading.sensor_id = 1 ∧
    exampleReading.humidity = 55 ∧
    exampleReading.temperature = 35 ∧
    exampleReading.conductivity = 400 ∧
    exampleReading.ph = 13 / 2 ∧
    exampleReading.nitrogen = 20 ∧
    exampleReading.phosphorus = 15 ∧
    exampleReading.potassium = 30 := by
  have hF : _parse_frame exampleFrame = .ok exampleReading := by rfl
  obtain ⟨h0, h1, h2, h3, h4, h5, h6, h7⟩ :=
    C4_parse_success_field_mapping exampleFrame exampleReading hF
  refine ⟨hF, ?_, ?_, ?_, ?_, ?_, ?_, ?_, ?_⟩
  · rw [h0]; decide
  · rw [h1, show exampleFrame.getD 3 0 <<< 8 ||| exampleFrame.getD 4 0 = 550 by decide]
    norm_num
  · rw [h2, show exampleFrame.getD 5 0 <<< 8 ||| exampleFrame.getD 6 0 = 350 by decide]
    norm_num
  · rw [h3]; decide
  · rw [h4, show exampleFrame.getD 9 0 <<< 8 ||| exampleFrame.getD 10 0 = 65 by decide]
    norm_num
  · rw [h5]; decide
  · rw [h6]; decide
  · rw [h7]; decide

/-- C10: `_parse_frame` never checks the address byte against the queried
device address — for every register payload and every first-byte value
(0 to 255), the well-formed frame carrying that first byte passes every
validation stage and the byte comes back unchanged as `sensor_id`, even
though `QUERY_FRAME` always targets address `0x01`. -/
theorem C10_address_byte_never_checked
    (addr r0 r1 r2 r3 r4 r5 r6 : Nat) (haddr : addr < 256)
    (h0 : r0 < 65536) (h1 : r1 < 65536) (h2 : r2 < 65536) (h3 : r3 < 65536)
    (h4 : r4 < 65536) (h5 : r5 < 65536) (h6 : r6 < 65536) :
    _parse_frame (mkFrame addr r0 r1 r2 r3 r4 r5 r6) = .ok
      { sensor_id := addr
        humidity := (r0 : ℚ) / 10
        temperature := (r1 : ℚ) / 10
        conductivity := r2
        ph := (r3 : ℚ) / 10
        nitrogen := r4
        phosphorus := r5
        potassium := r6 } ∧
    QUERY_FRAME.getD 0 0 = 0x01 := by
  refine ⟨?_, rfl⟩
  unfold mkFrame
  rw [parse_appendCrc]
  simp only [lor_hi_lo]

/-- C10 witness: address byte 200 (not the queried address 1) decodes
successfully, with `sensor_id = 200`. -/
theorem C10_address_byte_never_checked_witness :
    _parse_frame (mkFrame 200 550 350 400 65 20 15 30) = .ok
      { sensor_id := 200
        humidity := ((550 : Nat) : ℚ) / 10
        temperature := ((350 : Nat) : ℚ) / 10
        conductivity := 400
        ph := ((65 : Nat) : ℚ) / 10
        nitrogen := 20
        phosphorus := 15
        potassium := 30 } ∧
    QUERY_FRAME.getD 0 0 = 0x01 :=
  C10_address_byte_never_checked 200 550 350 400 65 20 15 30 (by decide) (by decide)
    (by decide) (by decide) (by decide) (by decide) (by decide) (by decide)

/-- After any sequence of appends the deque holds exactly the last `cap`
elements of the appended sequence, oldest first. -/
theorem historyAfter_eq_drop {α : Type} (cap : Nat) (xs : List α) :
    historyAfter cap xs = xs.drop (xs.length - cap) := by
  induction xs using List.reverseRecOn with
  | nil => simp [historyAfter]
  | append_singleton xs x ih =>
      unfold historyAfter at ih ⊢
      rw [List.foldl_append, List.foldl_cons, List.foldl_nil, ih]
      unfold dequeAppend
      rw [← List.drop_append_of_le_length (Nat.sub_le xs.length cap), List.drop_drop]
      congr 1
      simp only [List.length_drop, List.length_append, List.length_cons,
        List.length_nil]
      omega

/-- Appending to a non-empty deque that holds at least one element keeps
the appended element reachable as the last element. -/
theorem getLast?_dequeAppend {α : Type} (cap : Nat) (hcap : 1 ≤ cap)
    (buf : List α) (x : α) : (dequeAppend cap buf x).getLast? = some x := by
  unfold dequeAppend
  rw [List.drop_append_of_le_length (by omega)]
  exact List.getLast?_concat _

/-- C5: the history buffer never exceeds the configured capacity, after
`cap + k` appends it holds exactly the last `cap` appended readings in
append order, and appending to a full buffer evicts exactly the oldest
entry. -/
theorem C5_history_ring_buffer (cap : Nat) :
    (∀ xs : List Reading, (historyAfter cap xs).length ≤ cap) ∧
    (∀ (k : Nat) (xs : List Reading), xs.length = cap + k →
      historyAfter cap xs = xs.drop k) ∧
    (∀ (buf : List Reading) (x : Reading), 1 ≤ cap → buf.length = cap →
      dequeAppend cap buf x = buf.drop 1 ++ [x]) := by
  refine ⟨?_, ?_, ?_⟩
  · intro xs
    rw [historyAfter_eq_drop]
    simp only [List.length_drop]
    omega
  · intro k xs hlen
    rw [historyAfter_eq_drop, hlen]
    congr 1
    omega
  · intro buf x hcap hlen
    unfold dequeAppend
    rw [List.drop_append_of_le_length (by omega)]
    congr 2
    omega

/-- C5 witness: with capacity 2, three appends leave the last two
readings, and appending to the full two-element buffer evicts the
oldest. -/
theorem C5_history_ring_buffer_witness :
    (historyAfter 2 [sampleReading 1, sampleReading 2, sampleReading 3]).length ≤ 2 ∧
    historyAfter 2 [sampleReading 1, sampleReading 2, sampleReading 3] =
      [sampleReading 2, sampleReading 3] ∧
    dequeAppend 2 [sampleReading 1, sampleReading 2] (sampleReading 3) =
      [sampleReading 2, sampleReading 3] := by
  refine ⟨(C5_history_ring_buffer 2).1 _, ?_, ?_⟩
  · have h := (C5_history_ring_buffer 2).2.1 1
      [sampleReading 1, sampleReading 2, sampleReading 3] (by simp)
    simpa using h
  · have h := (C5_history_ring_buffer 2).2.2 [sampleReading 1, sampleReading 2]
      (sampleReading 3) (by omega) (by simp)
    simpa using h

/-- C6: the sequence counter is incremented by exactly one per append —
the append, the eviction and the increment form one atomic critical
section, modelled by the single function `storeAppend` — it strictly
increases across every append, and over any run of appends it only ever
grows, by exactly the number of appends (so it is never decremented or
reset). -/
theorem C6_sequence_counter_monotone (cap : Nat) :
    (∀ (s : StoreState) (r : Reading),
      (storeAppend cap s r).last_seq = s.last_seq + 1) ∧
    (∀ (s : StoreState) (r : Reading),
      s.last_seq < (storeAppend cap s r).last_seq) ∧
    (∀ (s : StoreState) (rs : List Reading),
      (storeRun cap s rs).last_seq = s.last_seq + rs.length) := by
  refine ⟨fun s r => rfl, fun s r => Nat.lt_succ_self _, ?_⟩
  intro s rs
  induction rs generalizing s with
  | nil => rfl
  | cons r rs ih =>
      unfold storeRun at ih ⊢
      rw [List.foldl_cons, ih]
      simp only [storeAppend, List.length_cons]
      omega

/-- C7: a waiter whose last-seen sequence number equals the counter stays
blocked; a waiter whose number is stale returns immediately with the
latest reading and the current counter, without blocking; and as soon as
an append happens, a previously blocked waiter's predicate turns true and
it returns exactly the appended reading with the incremented counter. -/
theorem C7_wait_for_next (cap : Nat) :
    (∀ s : StoreState, waitForNextNow s.last_seq s = none) ∧
    (∀ (s : StoreState) (lastSeen : Nat) (r : Reading),
      s.last_seq ≠ lastSeen → s.history.getLast? = some r →
      waitForNextNow lastSeen s = some (r, s.last_seq)) ∧
    (∀ (s : StoreState) (r : Reading), 1 ≤ cap →
      waitForNextNow s.last_seq (storeAppend cap s r) = some (r, s.last_seq + 1)) := by
  refine ⟨?_, ?_, ?_⟩
  · intro s
    simp [waitForNextNow]
  · intro s lastSeen r hne hlast
    simp [waitForNextNow, hne, hlast]
  · intro s r hcap
    have hseq : (storeAppend cap s r).last_seq = s.last_seq + 1 := rfl
    have hlast : (storeAppend cap s r).history.getLast? = some r :=
      getLast?_dequeAppend cap hcap s.history r
    simp [waitForNextNow, hseq, hlast]

/-- C7 witness: with the counter at 5, a waiter that last saw 5 blocks; a
waiter that last saw 0 returns immediately with the latest reading and 5;
after an append, a waiter that last saw 5 gets the appended reading and
6. -/
theorem C7_wait_for_next_witness :
    waitForNextNow 5 ⟨[sampleReading 1], 5⟩ = none ∧
    waitForNextNow 0 ⟨[sampleReading 1], 5⟩ = some (sampleReading 1, 5) ∧
    waitForNextNow 5 (storeAppend 3 ⟨[sampleReading 1], 5⟩ (sampleReading 2)) =
      some (sampleReading 2, 6) :=
  ⟨(C7_wait_for_next 3).1 ⟨[sampleReading 1], 5⟩,
   (C7_wait_for_next 3).2.1 ⟨[sampleReading 1], 5⟩ 0 (sampleReading 1)
     (by decide) rfl,
   (C7_wait_for_next 3).2.2 ⟨[sampleReading 1], 5⟩ (sampleReading 2) (by decide)⟩

/-- One simulated cycle always lands inside the clamp ranges, whatever the
random draws and whatever the previous state. -/
theorem simStep_inRange (u : SimNoise) (s : SimState) : inRange (simStep u s) := by
  unfold simStep inRange
  refine ⟨le_max_left _ _, max_le (by norm_num) (min_le_left _ _),
    le_max_left _ _, max_le (by norm_num) (min_le_left _ _),
    le_max_left _ _, max_le (by norm_num) (min_le_left _ _),
    le_max_left _ _, le_max_left _ _, le_max_left _ _, le_max_left _ _⟩

/-- C8: every simulated cycle preserves the clamp invariant — humidity in
`[0, 100]`, temperature in `[-20, 60]`, pH in `[0, 14]`, and
conductivity, nitrogen, phosphorus and potassium each `≥ 0` — and hence
after any number of successive cycles from any in-range state every field
stays within its documented range. -/
theorem C8_sim_clamp_invariant :
    (∀ (u : SimNoise) (s : SimState), inRange (simStep u s)) ∧
    (∀ (us : List SimNoise) (s : SimState), inRange s → inRange (simRun us s)) := by
  refine ⟨simStep_inRange, ?_⟩
  intro us
  induction us with
  | nil => intro s hs; exact hs
  | cons u us ih =>
      intro s _
      exact ih (simStep u s) (simStep_inRange u s)

/-- C8 witness: from the worker's initial simulated state, 10000 cycles
with every draw equal to `1/2` stay in range. -/
theorem C8_sim_clamp_invariant_witness :
    inRange (simRun (List.replicate 10000 halfNoise) simInit) :=
  C8_sim_clamp_invariant.2 (List.replicate 10000 halfNoise) simInit
    (by norm_num [inRange, simInit])

/-- C9 counterexample to the claim as stated: with fallback disabled and
the link open, a decode failure or I/O error does NOT close the link —
`ser` stays open and no reconnection is attempted, the handler only
sleeps; so "the worker closes the link" is false on the
fallback-disabled path. -/
theorem C9_counterexample :
    ¬ (onCycleError false { serOpen := true, simulating := false }).1.serOpen = false := by
  decide

/-- C9 (amended): on a decode failure or read/write I/O error, when
fallback is enabled and the link is open the worker closes the link and
switches to simulated mode; when fallback is disabled, or the link is
already closed, the state is left unchanged — with fallback disabled the
link is not closed, and the worker retries the same open link rather than
re-entering a connect phase; in every case it sleeps a fixed backoff of
1 time unit. -/
theorem C9_failure_policy :
    (∀ sim : Bool, onCycleError true { serOpen := true, simulating := sim } =
      ({ serOpen := false, simulating := true }, 1)) ∧
    (∀ s : WorkerState, onCycleError false s = (s, 1)) ∧
    (∀ (fb : Bool) (sim : Bool), onCycleError fb { serOpen := false, simulating := sim } =
      ({ serOpen := false, simulating := sim }, 1)) := by
  refine ⟨fun sim => rfl, ?_, ?_⟩
  · intro s
    simp [onCycleError]
  · intro fb sim
    simp [onCycleError]

end PhytoGuard
